import Mathlib

/-!
Verification of the Bastion-Website repository: a shallow embedding of the
MaterialRadio widget (the vendored Material Design Lite radio component) and
of the static-site HTML document shell, together with proofs of the
specified observable properties.

The widget keeps a decorative container element in sync with a native radio
control: CSS classes on the container mirror the checked / disabled / focused
state of the control, and checked changes are propagated across all widget
instances sharing the same control name.
-/

namespace MaterialRadio

/-- CssClasses_.IS_FOCUSED from the source. -/
def IS_FOCUSED : String := "is-focused"

/-- CssClasses_.IS_DISABLED from the source. -/
def IS_DISABLED : String := "is-disabled"

/-- CssClasses_.IS_CHECKED from the source. -/
def IS_CHECKED : String := "is-checked"

/-- CssClasses_.IS_UPGRADED from the source. -/
def IS_UPGRADED : String := "is-upgraded"

/-- CssClasses_.JS_RADIO_CLASS from the source: the widget marker class on containers. -/
def JS_RADIO_CLASS : String := "mdl-js-radio"

/-- CssClasses_.RADIO_BTN from the source: the marker class of the native control. -/
def RADIO_BTN : String := "mdl-radio__button"

/-- CssClasses_.RADIO_OUTER_CIRCLE from the source. -/
def RADIO_OUTER_CIRCLE : String := "mdl-radio__outer-circle"

/-- CssClasses_.RADIO_INNER_CIRCLE from the source. -/
def RADIO_INNER_CIRCLE : String := "mdl-radio__inner-circle"

/-- CssClasses_.RIPPLE_EFFECT from the source. -/
def RIPPLE_EFFECT : String := "mdl-js-ripple-effect"

/-- CssClasses_.RIPPLE_IGNORE_EVENTS from the source. -/
def RIPPLE_IGNORE_EVENTS : String := "mdl-js-ripple-effect--ignore-events"

/-- CssClasses_.RIPPLE_CONTAINER from the source. -/
def RIPPLE_CONTAINER : String := "mdl-radio__ripple-container"

/-- CssClasses_.RIPPLE_CENTER from the source. -/
def RIPPLE_CENTER : String := "mdl-ripple--center"

/-- CssClasses_.RIPPLE from the source. -/
def RIPPLE : String := "mdl-ripple"

/-- DOM classList.add: appends the class unless it is already present
(DOMTokenList semantics: no duplicates, insertion order kept). -/
def classListAdd (cs : List String) (c : String) : List String :=
  if c ∈ cs then cs else cs ++ [c]

/-- DOM classList.remove: removes every occurrence of the class. -/
def classListRemove (cs : List String) (c : String) : List String :=
  cs.filter (fun x => x ≠ c)

/-- The native radio control inside a widget container (this.btnElement_):
its name attribute, its checked and disabled properties, and whether it
currently holds keyboard focus. -/
structure BtnElement where
  name : String
  checked : Bool
  disabled : Bool
  focused : Bool

/-- The event handlers defined by the component; init registers them on the
control and on the container. -/
inductive Handler where
  | onChange
  | onFocus
  | onBlur
  | onMouseup

/-- One element carrying the mdl-js-radio marker class: its container
classList (this.element_.classList), its inner native control
(this.btnElement_), the listeners registered on it, and whether the element
holds an upgraded MaterialRadio instance (element_ [MaterialRadio]). -/
structure RadioElem where
  classes : List String
  btn : BtnElement
  listeners : List (String × Handler)
  hasInstance : Bool

/-- MaterialRadio.prototype.checkDisabled: mirror the disabled property of
the control into the IS_DISABLED class of the container. -/
def checkDisabled (r : RadioElem) : RadioElem :=
  if r.btn.disabled then
    { r with classes := classListAdd r.classes IS_DISABLED }
  else
    { r with classes := classListRemove r.classes IS_DISABLED }

/-- MaterialRadio.prototype.checkToggleState: mirror the checked property of
the control into the IS_CHECKED class of the container. -/
def checkToggleState (r : RadioElem) : RadioElem :=
  if r.btn.checked then
    { r with classes := classListAdd r.classes IS_CHECKED }
  else
    { r with classes := classListRemove r.classes IS_CHECKED }

/-- MaterialRadio.prototype.updateClasses_ (refreshVisualState in the spec):
checkDisabled followed by checkToggleState. -/
def updateClasses_ (r : RadioElem) : RadioElem :=
  checkToggleState (checkDisabled r)

/-- MaterialRadio.prototype.onFocus_: add the IS_FOCUSED class. -/
def onFocus_ (r : RadioElem) : RadioElem :=
  { r with classes := classListAdd r.classes IS_FOCUSED }

/-- MaterialRadio.prototype.onBlur_: remove the IS_FOCUSED class. -/
def onBlur_ (r : RadioElem) : RadioElem :=
  { r with classes := classListRemove r.classes IS_FOCUSED }

/-! Basic lemmas about the classList operations. -/

theorem mem_classListAdd_iff (a c : String) (cs : List String) :
    a ∈ classListAdd cs c ↔ a ∈ cs ∨ a = c := by
  unfold classListAdd
  split
  · constructor
    · exact Or.inl
    · rintro (h | rfl) <;> assumption
  · simp

theorem mem_classListRemove_iff (a c : String) (cs : List String) :
    a ∈ classListRemove cs c ↔ a ∈ cs ∧ a ≠ c := by
  unfold classListRemove
  simp [List.mem_filter]

theorem classListAdd_eq_of_mem {c : String} {cs : List String} (h : c ∈ cs) :
    classListAdd cs c = cs := by
  unfold classListAdd
  simp [h]

theorem classListRemove_eq_of_not_mem {c : String} {cs : List String} (h : c ∉ cs) :
    classListRemove cs c = cs := by
  unfold classListRemove
  refine List.filter_eq_self.mpr ?_
  intro a ha
  simp only [ne_eq, decide_eq_true_eq]
  rintro rfl
  exact h ha

theorem mem_classListAdd_self (c : String) (cs : List String) :
    c ∈ classListAdd cs c :=
  (mem_classListAdd_iff c c cs).mpr (Or.inr rfl)

theorem not_mem_classListRemove_self (c : String) (cs : List String) :
    c ∉ classListRemove cs c := by
  intro h
  exact ((mem_classListRemove_iff c c cs).mp h).2 rfl

theorem classListRemove_classListAdd_self (c : String) (cs : List String) :
    classListRemove (classListAdd cs c) c = classListRemove cs c := by
  unfold classListAdd
  split
  · rfl
  · unfold classListRemove
    simp

/-! Frame lemmas: the resynchronization routines touch only the classList. -/

theorem checkDisabled_btn (r : RadioElem) : (checkDisabled r).btn = r.btn := by
  unfold checkDisabled
  split <;> rfl

theorem checkDisabled_listeners (r : RadioElem) :
    (checkDisabled r).listeners = r.listeners := by
  unfold checkDisabled
  split <;> rfl

theorem checkDisabled_hasInstance (r : RadioElem) :
    (checkDisabled r).hasInstance = r.hasInstance := by
  unfold checkDisabled
  split <;> rfl

theorem checkToggleState_btn (r : RadioElem) : (checkToggleState r).btn = r.btn := by
  unfold checkToggleState
  split <;> rfl

theorem checkToggleState_listeners (r : RadioElem) :
    (checkToggleState r).listeners = r.listeners := by
  unfold checkToggleState
  split <;> rfl

theorem checkToggleState_hasInstance (r : RadioElem) :
    (checkToggleState r).hasInstance = r.hasInstance := by
  unfold checkToggleState
  split <;> rfl

theorem updateClasses_btn (r : RadioElem) : (updateClasses_ r).btn = r.btn := by
  unfold updateClasses_
  rw [checkToggleState_btn, checkDisabled_btn]

theorem updateClasses_listeners (r : RadioElem) :
    (updateClasses_ r).listeners = r.listeners := by
  unfold updateClasses_
  rw [checkToggleState_listeners, checkDisabled_listeners]

theorem updateClasses_hasInstance (r : RadioElem) :
    (updateClasses_ r).hasInstance = r.hasInstance := by
  unfold updateClasses_
  rw [checkToggleState_hasInstance, checkDisabled_hasInstance]

/-! Membership in the classList after a resynchronization. -/

theorem checkDisabled_classes (r : RadioElem) :
    (checkDisabled r).classes =
      if r.btn.disabled then classListAdd r.classes IS_DISABLED
      else classListRemove r.classes IS_DISABLED := by
  unfold checkDisabled
  split <;> simp_all

theorem checkToggleState_classes (r : RadioElem) :
    (checkToggleState r).classes =
      if r.btn.checked then classListAdd r.classes IS_CHECKED
      else classListRemove r.classes IS_CHECKED := by
  unfold checkToggleState
  split <;> simp_all

theorem is_checked_ne_is_disabled : IS_CHECKED ≠ IS_DISABLED := by decide

theorem mem_updateClasses_is_checked (r : RadioElem) :
    IS_CHECKED ∈ (updateClasses_ r).classes ↔ r.btn.checked = true := by
  unfold updateClasses_
  rw [checkToggleState_classes, checkDisabled_btn]
  cases hc : r.btn.checked <;> simp
  · exact not_mem_classListRemove_self _ _
  · exact mem_classListAdd_self _ _

theorem mem_updateClasses_is_disabled (r : RadioElem) :
    IS_DISABLED ∈ (updateClasses_ r).classes ↔ r.btn.disabled = true := by
  unfold updateClasses_
  rw [checkToggleState_classes, checkDisabled_btn, checkDisabled_classes]
  cases hc : r.btn.checked <;> cases hd : r.btn.disabled <;>
    simp [mem_classListAdd_iff, mem_classListRemove_iff,
      mem_classListAdd_self, not_mem_classListRemove_self,
      is_checked_ne_is_disabled, Ne.symm is_checked_ne_is_disabled]

theorem mem_updateClasses_of_ne (a : String) (r : RadioElem)
    (h1 : a ≠ IS_CHECKED) (h2 : a ≠ IS_DISABLED) :
    a ∈ (updateClasses_ r).classes ↔ a ∈ r.classes := by
  unfold updateClasses_
  rw [checkToggleState_classes, checkDisabled_btn, checkDisabled_classes]
  cases hc : r.btn.checked <;> cases hd : r.btn.disabled <;>
    simp [mem_classListAdd_iff, mem_classListRemove_iff, h1, h2]

theorem not_mem_classListAdd_of_ne {a c : String} (cs : List String)
    (ha : a ∉ cs) (hne : a ≠ c) : a ∉ classListAdd cs c := by
  rw [mem_classListAdd_iff]
  rintro (h | h)
  · exact ha h
  · exact hne h

theorem mem_classListRemove_of_ne {a c : String} {cs : List String}
    (ha : a ∈ cs) (hne : a ≠ c) : a ∈ classListRemove cs c :=
  (mem_classListRemove_iff a c cs).mpr ⟨ha, hne⟩

/-- Derived characterization of the classList computed by updateClasses_
from the control state, used to structure the idempotence proof. -/
def syncClasses (b : BtnElement) (cs : List String) : List String :=
  if b.checked then
    classListAdd (if b.disabled then classListAdd cs IS_DISABLED
                  else classListRemove cs IS_DISABLED) IS_CHECKED
  else
    classListRemove (if b.disabled then classListAdd cs IS_DISABLED
                     else classListRemove cs IS_DISABLED) IS_CHECKED

theorem updateClasses_eq (r : RadioElem) :
    updateClasses_ r = { r with classes := syncClasses r.btn r.classes } := by
  unfold updateClasses_ checkDisabled checkToggleState syncClasses
  cases hd : r.btn.disabled <;> cases hc : r.btn.checked <;> simp [hd, hc]

theorem syncClasses_idem (b : BtnElement) (cs : List String) :
    syncClasses b (syncClasses b cs) = syncClasses b cs := by
  have hdc : IS_DISABLED ≠ IS_CHECKED := Ne.symm is_checked_ne_is_disabled
  unfold syncClasses
  cases hd : b.disabled <;> cases hc : b.checked <;>
    simp only [Bool.false_eq_true, if_true, if_false, ite_true, ite_false]
  · -- disabled = false, checked = false
    rw [classListRemove_eq_of_not_mem (fun h =>
        not_mem_classListRemove_self IS_DISABLED cs
          ((mem_classListRemove_iff _ _ _).mp h).1),
      classListRemove_eq_of_not_mem (not_mem_classListRemove_self _ _)]
  · -- disabled = false, checked = true
    rw [classListRemove_eq_of_not_mem
        (not_mem_classListAdd_of_ne _ (not_mem_classListRemove_self _ _) hdc),
      classListAdd_eq_of_mem (mem_classListAdd_self _ _)]
  · -- disabled = true, checked = false
    rw [classListAdd_eq_of_mem
        (mem_classListRemove_of_ne (mem_classListAdd_self _ _) hdc),
      classListRemove_eq_of_not_mem (not_mem_classListRemove_self _ _)]
  · -- disabled = true, checked = true
    rw [@classListAdd_eq_of_mem IS_DISABLED
        (classListAdd (classListAdd cs IS_DISABLED) IS_CHECKED)
        ((mem_classListAdd_iff _ _ _).mpr (Or.inl (mem_classListAdd_self _ _))),
      classListAdd_eq_of_mem (mem_classListAdd_self _ _)]

/-- C3: refreshVisualState (updateClasses_, checkDisabled followed by
checkToggleState) is idempotent: for every widget instance in every control
state, a second run with no intervening control-state change leaves the
container classList (and the whole instance) exactly as the first run did. -/
theorem c3_updateClasses_idempotent (r : MaterialRadio.RadioElem) :
    updateClasses_ (updateClasses_ r) = updateClasses_ r := by
  rw [updateClasses_eq r, updateClasses_eq, syncClasses_idem]

/-- C10: checkDisabled, checkToggleState, and hence updateClasses_, write
only the container classList: the native control (its name, checked,
disabled and focus state) is left exactly unchanged, as are the registered
listeners and the instance marker. -/
theorem c10_resync_frame (r : RadioElem) :
    (checkDisabled r).btn = r.btn ∧
    (checkToggleState r).btn = r.btn ∧
    (updateClasses_ r).btn = r.btn ∧
    (updateClasses_ r).listeners = r.listeners ∧
    (updateClasses_ r).hasInstance = r.hasInstance :=
  ⟨checkDisabled_btn r, checkToggleState_btn r,
    updateClasses_btn r, updateClasses_listeners r,
    updateClasses_hasInstance r⟩

/-- The live document, restricted to the elements that carry the JS_RADIO_CLASS
marker class (the collection scanned by onChange_). -/
abbrev Document := List RadioElem

/-- One iteration step plus recursion of the for loop in
MaterialRadio.prototype.onChange_: visit position i; if the control of the
element at i has the same name attribute as the originating control and the
element holds a MaterialRadio instance, run its updateClasses_ in place.
The fuel argument counts the remaining iterations (radios.length - i): the
loop bound radios.length is fixed, since no iteration adds or removes an
element from the collection. -/
def onChangeIter (name : String) : Nat → Nat → Document → Document
  | 0, _, doc => doc
  | n + 1, i, doc =>
    let doc1 :=
      match doc[i]? with
      | some r =>
        if r.btn.name == name && r.hasInstance then doc.set i (updateClasses_ r)
        else doc
      | none => doc
    onChangeIter name n (i + 1) doc1

/-- MaterialRadio.prototype.onChange_: scan all JS_RADIO_CLASS elements in the
document and resynchronize every instance whose control shares the name
attribute of the originating control (name is
this.btnElement_.getAttribute applied to the name attribute). -/
def onChange_ (doc : Document) (name : String) : Document :=
  onChangeIter name doc.length 0 doc

/-- The pointwise effect of one onChange_ visit: resynchronize the element
when its control name matches the originating name and the element holds an
instance, leave it untouched otherwise. -/
def onChangeF (name : String) (r : RadioElem) : RadioElem :=
  if r.btn.name == name && r.hasInstance then updateClasses_ r else r

theorem onChangeIter_eq_map (name : String) :
    ∀ (n i : Nat) (doc : Document), doc.length ≤ i + n →
      onChangeIter name n i doc = doc.take i ++ (doc.drop i).map (onChangeF name) := by
  intro n
  induction n with
  | zero =>
    intro i doc h
    rw [Nat.add_zero] at h
    unfold onChangeIter
    rw [List.take_of_length_le h, List.drop_eq_nil_of_le h]
    simp
  | succ n ih =>
    intro i doc h
    unfold onChangeIter
    by_cases hi : i < doc.length
    · have hget : doc[i]? = some doc[i] := List.getElem?_eq_getElem hi
      have hdrop : doc.drop i = doc[i] :: doc.drop (i + 1) :=
        List.drop_eq_getElem_cons hi
      have htake : doc.take (i + 1) = doc.take i ++ [doc[i]] := by
        rw [List.take_succ, List.getElem?_eq_getElem hi]
        rfl
      simp only [hget]
      cases hcb : (doc[i].btn.name == name && doc[i].hasInstance)
      · have hF : onChangeF name doc[i] = doc[i] := by
          unfold onChangeF
          rw [hcb]
          simp
        rw [if_neg (by exact Bool.false_ne_true)]
        have hlen : doc.length ≤ (i + 1) + n := by omega
        rw [ih (i + 1) doc hlen, htake, hdrop]
        simp only [List.map_cons, hF, List.append_assoc, List.cons_append, List.nil_append]
      · have hF : onChangeF name doc[i] = updateClasses_ doc[i] := by
          unfold onChangeF
          rw [hcb]
          simp
        rw [if_pos rfl]
        have hset : doc.set i (updateClasses_ doc[i]) =
            doc.take i ++ updateClasses_ doc[i] :: doc.drop (i + 1) := by
          have := List.set_eq_take_cons_drop (updateClasses_ doc[i]) hi
          simpa using this
        have hlen : (doc.set i (updateClasses_ doc[i])).length ≤ (i + 1) + n := by
          rw [List.length_set]
          omega
        rw [ih (i + 1) _ hlen, hset]
        have hlt : i ≤ doc.length := Nat.le_of_lt hi
        have hlen2 : (doc.take i).length = i := by
          rw [List.length_take]
          omega
        have htk : (doc.take i ++ updateClasses_ doc[i] :: doc.drop (i + 1)).take
            (i + 1) = doc.take i ++ [updateClasses_ doc[i]] := by
          rw [List.take_append_eq_append_take, hlen2]
          have h3 : i + 1 - i = 1 := by omega
          rw [h3]
          have h4 : (doc.take i).take (i + 1) = doc.take i := by
            apply List.take_of_length_le
            rw [hlen2]
            omega
          rw [h4]
          rfl
        have hdr : (doc.take i ++ updateClasses_ doc[i] :: doc.drop (i + 1)).drop
            (i + 1) = doc.drop (i + 1) := by
          rw [List.drop_append_eq_append_drop, hlen2]
          have h3 : (doc.take i).drop (i + 1) = [] := by
            apply List.drop_eq_nil_of_le
            rw [hlen2]
            omega
          have h4 : i + 1 - i = 1 := by omega
          rw [h3, h4]
          rfl
        rw [htk, hdr, hdrop]
        simp only [List.map_cons, hF, List.append_assoc, List.cons_append, List.nil_append]
    · have hle : doc.length ≤ i := Nat.le_of_not_lt hi
      have hget : doc[i]? = none := by
        rw [List.getElem?_eq_none hle]
      simp only [hget]
      have hlen : doc.length ≤ (i + 1) + n := by omega
      rw [ih (i + 1) doc hlen]
      rw [List.take_of_length_le hle, List.take_of_length_le (by omega),
        List.drop_eq_nil_of_le hle, List.drop_eq_nil_of_le (by omega)]

theorem onChange_eq_map (doc : Document) (name : String) :
    onChange_ doc name = doc.map (onChangeF name) := by
  unfold onChange_
  rw [onChangeIter_eq_map name doc.length 0 doc (by omega)]
  simp

/-- C4: on every change event (user driven or triggered by check or
uncheck), the group-propagation step visits every element carrying the
widget marker class in the document: each element whose control name equals
the originating control name and which holds an instance - the originating
instance included - has its resynchronization routine updateClasses_
applied, and every other element is left exactly unchanged. -/
theorem c4_onChange_group_resync (doc : MaterialRadio.Document) (name : String) :
    MaterialRadio.onChange_ doc name =
      doc.map (fun r =>
        if r.btn.name == name && r.hasInstance then MaterialRadio.updateClasses_ r else r) :=
  onChange_eq_map doc name

/-- MaterialRadio.prototype.disable: set the disabled property of the
control to true, then resynchronize the visual classes. -/
def disable (r : RadioElem) : RadioElem :=
  updateClasses_ { r with btn := { r.btn with disabled := true } }

/-- MaterialRadio.prototype.enable: set the disabled property of the
control to false, then resynchronize the visual classes. -/
def enable (r : RadioElem) : RadioElem :=
  updateClasses_ { r with btn := { r.btn with disabled := false } }

/-- Modelled from the spec: native radio-button mutual exclusion, the
browser behavior behind the checked property that the source relies on
(spec: instances sharing the same control name form an implicit
mutual-exclusion group, mirroring native radio-button semantics). Writing
checked = true on the control at position i unchecks every control sharing
its name attribute and checks the control at i. -/
def setCheckedNative (doc : Document) (i : Nat) : Document :=
  match doc[i]? with
  | none => doc
  | some r =>
    (doc.map (fun s =>
      if s.btn.name == r.btn.name then { s with btn := { s.btn with checked := false } }
      else s)).set i { r with btn := { r.btn with checked := true } }

/-- MaterialRadio.prototype.check, lifted to the document: write true to
this.btnElement_.checked (with the native group exclusivity of that
property), then run the group propagation onChange_ with the name attribute
of the originating control. -/
def check (doc : Document) (i : Nat) : Document :=
  match doc[i]? with
  | none => doc
  | some r => onChange_ (setCheckedNative doc i) r.btn.name

/-- MaterialRadio.prototype.uncheck, lifted to the document: write false to
this.btnElement_.checked (no native side effect on the group), then run the
group propagation onChange_. -/
def uncheck (doc : Document) (i : Nat) : Document :=
  match doc[i]? with
  | none => doc
  | some r =>
    onChange_ (doc.set i { r with btn := { r.btn with checked := false } }) r.btn.name

theorem disable_btn (r : RadioElem) :
    (disable r).btn = { r.btn with disabled := true } := by
  unfold disable
  rw [updateClasses_btn]

theorem disable_classes (r : RadioElem)
    (hsync : IS_CHECKED ∈ r.classes ↔ r.btn.checked = true) :
    (disable r).classes = classListAdd r.classes IS_DISABLED := by
  have hdc : IS_DISABLED ≠ IS_CHECKED := Ne.symm is_checked_ne_is_disabled
  unfold disable
  rw [updateClasses_eq]
  simp only [syncClasses]
  cases hc : r.btn.checked
  · have hnc : IS_CHECKED ∉ r.classes := by
      rw [hsync, hc]
      simp
    simp only [hc, Bool.false_eq_true, if_true, if_false, ite_true, ite_false]
    exact classListRemove_eq_of_not_mem
      (not_mem_classListAdd_of_ne _ hnc (Ne.symm hdc))
  · have hc2 : IS_CHECKED ∈ r.classes := hsync.mpr hc
    simp only [hc, if_true, if_false, ite_true, ite_false]
    exact classListAdd_eq_of_mem
      ((mem_classListAdd_iff _ _ _).mpr (Or.inl hc2))

theorem enable_disable_classes (r : RadioElem)
    (hsync : IS_CHECKED ∈ r.classes ↔ r.btn.checked = true) :
    (enable (disable r)).classes = classListRemove r.classes IS_DISABLED := by
  have hdc : IS_DISABLED ≠ IS_CHECKED := Ne.symm is_checked_ne_is_disabled
  have hcls := disable_classes r hsync
  unfold enable
  rw [updateClasses_eq]
  simp only [syncClasses, disable_btn, hcls]
  cases hc : r.btn.checked
  · have hnc : IS_CHECKED ∉ r.classes := by
      rw [hsync, hc]
      simp
    simp only [hc, Bool.false_eq_true, if_true, if_false, ite_true, ite_false]
    rw [classListRemove_classListAdd_self]
    exact classListRemove_eq_of_not_mem (fun h =>
      hnc ((mem_classListRemove_iff _ _ _).mp h).1)
  · have hc2 : IS_CHECKED ∈ r.classes := hsync.mpr hc
    simp only [hc, if_true, if_false, ite_true, ite_false]
    rw [classListRemove_classListAdd_self]
    exact classListAdd_eq_of_mem
      (mem_classListRemove_of_ne hc2 (Ne.symm hdc))

/-- C6: for a widget instance whose checked class is in sync with its
control, disable adds exactly the IS_DISABLED class (the IS_CHECKED class
and everything else are unchanged), and a subsequent enable removes the
IS_DISABLED class, again leaving the IS_CHECKED class untouched. -/
theorem c6_disable_enable_frame (r : RadioElem)
    (hsync : IS_CHECKED ∈ r.classes ↔ r.btn.checked = true) :
    (disable r).classes = classListAdd r.classes IS_DISABLED ∧
    (IS_CHECKED ∈ (disable r).classes ↔ IS_CHECKED ∈ r.classes) ∧
    (enable (disable r)).classes = classListRemove r.classes IS_DISABLED ∧
    (IS_CHECKED ∈ (enable (disable r)).classes ↔ IS_CHECKED ∈ r.classes) := by
  have hdc : IS_DISABLED ≠ IS_CHECKED := Ne.symm is_checked_ne_is_disabled
  refine ⟨disable_classes r hsync, ?_, enable_disable_classes r hsync, ?_⟩
  · rw [disable_classes r hsync, mem_classListAdd_iff]
    constructor
    · rintro (h | h)
      · exact h
      · exact absurd h (Ne.symm hdc)
    · exact Or.inl
  · rw [enable_disable_classes r hsync, mem_classListRemove_iff]
    constructor
    · exact fun h => h.1
    · exact fun h => ⟨h, Ne.symm hdc⟩

/-- C6 witness: a concrete checked, enabled instance. -/
theorem c6_disable_enable_frame_witness :
    (IS_CHECKED ∈
        (RadioElem.mk ["mdl-js-radio", "is-upgraded", "is-checked"]
          (BtnElement.mk "tier" true false false) [] true).classes ↔
      (RadioElem.mk ["mdl-js-radio", "is-upgraded", "is-checked"]
          (BtnElement.mk "tier" true false false) [] true).btn.checked = true) ∧
    (disable (RadioElem.mk ["mdl-js-radio", "is-upgraded", "is-checked"]
          (BtnElement.mk "tier" true false false) [] true)).classes =
      classListAdd ["mdl-js-radio", "is-upgraded", "is-checked"] IS_DISABLED ∧
    (enable (disable (RadioElem.mk ["mdl-js-radio", "is-upgraded", "is-checked"]
          (BtnElement.mk "tier" true false false) [] true))).classes =
      classListRemove ["mdl-js-radio", "is-upgraded", "is-checked"] IS_DISABLED := by
  refine ⟨by decide, ?_, ?_⟩
  · exact (c6_disable_enable_frame _ (by decide)).1
  · exact (c6_disable_enable_frame _ (by decide)).2.2.1

theorem setCheckedNative_length (doc : Document) (i : Nat) :
    (setCheckedNative doc i).length = doc.length := by
  unfold setCheckedNative
  cases h : doc[i]? <;> simp

theorem setCheckedNative_getElem? (doc : Document) (i : Nat) (hi : i < doc.length)
    (j : Nat) :
    (setCheckedNative doc i)[j]? =
      if j = i then some { doc[i] with btn := { doc[i].btn with checked := true } }
      else (doc[j]?).map (fun s =>
        if s.btn.name == doc[i].btn.name then
          { s with btn := { s.btn with checked := false } }
        else s) := by
  unfold setCheckedNative
  rw [List.getElem?_eq_getElem hi]
  by_cases hj : j = i
  · subst hj
    rw [if_pos rfl]
    exact List.getElem?_set_eq_of_lt _ (by simpa using hi)
  · rw [if_neg hj, List.getElem?_set_ne (fun h => hj h.symm), List.getElem?_map]

theorem check_eq (doc : Document) (i : Nat) (hi : i < doc.length) :
    check doc i = onChange_ (setCheckedNative doc i) doc[i].btn.name := by
  unfold check
  rw [List.getElem?_eq_getElem hi]

theorem onChangeF_btn (name : String) (r : RadioElem) :
    (onChangeF name r).btn = r.btn := by
  unfold onChangeF
  split
  · rw [updateClasses_btn]
  · rfl

theorem mem_onChangeF_is_checked (name : String) (r : RadioElem)
    (hn : r.btn.name = name) (hin : r.hasInstance = true) :
    (IS_CHECKED ∈ (onChangeF name r).classes ↔ r.btn.checked = true) := by
  unfold onChangeF
  rw [if_pos (by rw [hn, hin]; simp)]
  exact mem_updateClasses_is_checked r

/-- C1: mutual exclusion of the checked visual class inside a name group.
For a document of widget elements in which every element sharing the name
attribute of the control at position i holds an instance, after check at
position i exactly the element at position i carries the IS_CHECKED class
among the elements of that group, and every other group member does not. -/
theorem c1_group_mutual_exclusion (doc : Document) (i : Nat) (hi : i < doc.length)
    (hinst : ∀ r ∈ doc, r.btn.name = doc[i].btn.name → r.hasInstance = true) :
    (check doc i).length = doc.length ∧
    ∀ j r2, (check doc i)[j]? = some r2 →
      r2.btn.name = doc[i].btn.name →
      (IS_CHECKED ∈ r2.classes ↔ j = i) := by
  have hchk := check_eq doc i hi
  have hmap := onChange_eq_map (setCheckedNative doc i) doc[i].btn.name
  constructor
  · rw [hchk, hmap, List.length_map, setCheckedNative_length]
  · intro j r2 hsome hnm
    rw [hchk, hmap, List.getElem?_map, setCheckedNative_getElem? doc i hi j] at hsome
    by_cases hj : j = i
    · subst hj
      rw [if_pos rfl] at hsome
      simp only [Option.map_some'] at hsome
      have hr2 : r2 = onChangeF doc[j].btn.name
          { doc[j] with btn := { doc[j].btn with checked := true } } :=
        (Option.some.inj hsome).symm
      have hin : doc[j].hasInstance = true :=
        hinst doc[j] (List.getElem_mem hi) rfl
      rw [hr2]
      exact ⟨fun _ => rfl, fun _ =>
        (mem_onChangeF_is_checked doc[j].btn.name
          { doc[j] with btn := { doc[j].btn with checked := true } } rfl hin).mpr rfl⟩
    · rw [if_neg hj] at hsome
      cases hdj : doc[j]? with
      | none =>
        rw [hdj] at hsome
        simp at hsome
      | some a =>
        rw [hdj] at hsome
        simp only [Option.map_some', Option.some.injEq] at hsome
        have ha : a ∈ doc := List.mem_iff_getElem?.mpr ⟨j, hdj⟩
        have hbtn : r2.btn =
            (if a.btn.name == doc[i].btn.name then
              { a with btn := { a.btn with checked := false } } else a).btn := by
          rw [← hsome, onChangeF_btn]
        have haname : a.btn.name = doc[i].btn.name := by
          by_cases hcond : a.btn.name == doc[i].btn.name
          · exact beq_iff_eq.mp hcond
          · rw [if_neg hcond] at hbtn
            rw [hbtn] at hnm
            exact hnm
        have hcond : (a.btn.name == doc[i].btn.name) = true := beq_iff_eq.mpr haname
        rw [if_pos hcond] at hsome
        have hin : a.hasInstance = true := hinst a ha haname
        rw [← hsome]
        have hiff := mem_onChangeF_is_checked doc[i].btn.name
          { a with btn := { a.btn with checked := false } } haname hin
        constructor
        · intro hmem
          exact absurd (hiff.mp hmem) (by simp)
        · intro hji
          exact absurd hji hj

/-- The listeners init registers: change, focus and blur on the control and
mouseup on the container. Note that the source binds onChange_ as the focus
handler (boundFocusHandler_ is onChange_ bound to this), not onFocus_. -/
def stdListeners : List (String × Handler) :=
  [("change", Handler.onChange), ("focus", Handler.onChange),
   ("blur", Handler.onBlur), ("mouseup", Handler.onMouseup)]

/-- Concrete three-element group sharing the name tier, used as witness
input; the first element starts checked. -/
def exGroupDoc : Document :=
  [ RadioElem.mk [JS_RADIO_CLASS, IS_UPGRADED, IS_CHECKED]
      (BtnElement.mk "tier" true false false) stdListeners true,
    RadioElem.mk [JS_RADIO_CLASS, IS_UPGRADED]
      (BtnElement.mk "tier" false false false) stdListeners true,
    RadioElem.mk [JS_RADIO_CLASS, IS_UPGRADED]
      (BtnElement.mk "tier" false false false) stdListeners true ]

/-- C1 witness: checking instance 1 of the concrete tier group leaves
exactly instance 1 checked; checking instance 2 afterwards moves the class
to exactly instance 2. -/
theorem c1_group_mutual_exclusion_witness :
    (1 < exGroupDoc.length) ∧
    (∀ j r2, (check exGroupDoc 1)[j]? = some r2 →
      r2.btn.name = (exGroupDoc.get ⟨1, by decide⟩).btn.name →
      (IS_CHECKED ∈ r2.classes ↔ j = 1)) ∧
    (∀ j r2, (check (check exGroupDoc 1) 2)[j]? = some r2 →
      r2.btn.name = ((check exGroupDoc 1).get ⟨2, by decide⟩).btn.name →
      (IS_CHECKED ∈ r2.classes ↔ j = 2)) := by
  refine ⟨by decide, ?_, ?_⟩
  · exact (c1_group_mutual_exclusion exGroupDoc 1 (by decide) (by decide)).2
  · exact (c1_group_mutual_exclusion (check exGroupDoc 1) 2 (by decide) (by decide)).2

/-- A deferred callback sitting in the event-loop timer queue. blurBtn i is
the callback queued by blur_ through window.setTimeout with the near-zero
delay Constant_.TINY_TIMEOUT (0.001): blur the native control of the
instance at position i. -/
inductive Task where
  | blurBtn (i : Nat)

/-- The single-threaded event-loop state: the live document plus the queue
of deferred callbacks not yet run; per the spec concurrency model a queued
callback runs only after the current event-handling turn completes. -/
structure EventLoop where
  doc : Document
  pending : List Task

/-- MaterialRadio.prototype.blur_: window.setTimeout of
this.btnElement_.blur() with Constant_.TINY_TIMEOUT, embedded as appending
a deferred task to the event-loop queue. Nothing happens synchronously and
no cancellation handle is kept. -/
def blur_ (s : EventLoop) (i : Nat) : EventLoop :=
  { s with pending := s.pending ++ [Task.blurBtn i] }

/-- MaterialRadio.prototype.onMouseup_: calls this.blur_(). -/
def onMouseup_ (s : EventLoop) (i : Nat) : EventLoop :=
  blur_ s i

/-- Run one registered handler with the instance at position i as this:
onChange_ runs the group propagation over the whole document with the
originating control name, onFocus_ and onBlur_ update the instance
classList in place, onMouseup_ queues the deferred blur. -/
def runHandler (h : Handler) (s : EventLoop) (i : Nat) : EventLoop :=
  match s.doc[i]? with
  | none => s
  | some r =>
    match h with
    | Handler.onChange => { s with doc := onChange_ s.doc r.btn.name }
    | Handler.onFocus => { s with doc := s.doc.set i (onFocus_ r) }
    | Handler.onBlur => { s with doc := s.doc.set i (onBlur_ r) }
    | Handler.onMouseup => onMouseup_ s i

/-- Dispatch a DOM event on the instance at position i: run, in
registration order, every listener registered for that event name. -/
def dispatchEvent (ev : String) (s : EventLoop) (i : Nat) : EventLoop :=
  match s.doc[i]? with
  | none => s
  | some r =>
    (r.listeners.filter (fun l => l.1 == ev)).foldl (fun st l => runHandler l.2 st i) s

/-- Modelled from the spec: executing a queued deferred callback. For
blurBtn i the native control at position i loses focus and the browser then
dispatches a blur event on it. -/
def runTask (s : EventLoop) : Task → EventLoop
  | Task.blurBtn i =>
    match s.doc[i]? with
    | none => s
    | some r =>
      dispatchEvent "blur"
        { s with doc := s.doc.set i { r with btn := { r.btn with focused := false } } } i

theorem runHandler_pending (h : Handler) (s : EventLoop) (i : Nat) :
    ∃ ts, (runHandler h s i).pending = s.pending ++ ts := by
  unfold runHandler
  split
  · exact ⟨[], (List.append_nil _).symm⟩
  · split
    · exact ⟨[], (List.append_nil _).symm⟩
    · exact ⟨[], (List.append_nil _).symm⟩
    · exact ⟨[], (List.append_nil _).symm⟩
    · exact ⟨[Task.blurBtn i], rfl⟩

theorem foldl_runHandler_pending (ls : List (String × Handler)) (s : EventLoop) (i : Nat) :
    ∃ ts, (ls.foldl (fun st l => runHandler l.2 st i) s).pending = s.pending ++ ts := by
  induction ls generalizing s with
  | nil => exact ⟨[], (List.append_nil _).symm⟩
  | cons l ls ih =>
    obtain ⟨ts2, h2⟩ := ih (runHandler l.2 s i)
    obtain ⟨ts1, h1⟩ := runHandler_pending l.2 s i
    exact ⟨ts1 ++ ts2, by rw [List.foldl_cons, h2, h1, List.append_assoc]⟩

theorem dispatchEvent_pending (ev : String) (s : EventLoop) (j : Nat) :
    ∃ ts, (dispatchEvent ev s j).pending = s.pending ++ ts := by
  unfold dispatchEvent
  split
  · exact ⟨[], (List.append_nil _).symm⟩
  · exact foldl_runHandler_pending _ _ _

theorem getElem?_lt_length {l : List RadioElem} {i : Nat} {r : RadioElem}
    (h : l[i]? = some r) : i < l.length := by
  by_contra hnot
  rw [List.getElem?_eq_none (Nat.le_of_not_lt hnot)] at h
  exact Option.noConfusion h

theorem dispatchEvent_change (s : EventLoop) (i : Nat) (r : RadioElem)
    (hr : s.doc[i]? = some r) (hl : r.listeners = stdListeners) :
    dispatchEvent "change" s i = { s with doc := onChange_ s.doc r.btn.name } := by
  simp [dispatchEvent, runHandler, stdListeners, hr, hl]

theorem dispatchEvent_focus (s : EventLoop) (i : Nat) (r : RadioElem)
    (hr : s.doc[i]? = some r) (hl : r.listeners = stdListeners) :
    dispatchEvent "focus" s i = { s with doc := onChange_ s.doc r.btn.name } := by
  simp [dispatchEvent, runHandler, stdListeners, hr, hl]

theorem dispatchEvent_blur (s : EventLoop) (i : Nat) (r : RadioElem)
    (hr : s.doc[i]? = some r) (hl : r.listeners = stdListeners) :
    dispatchEvent "blur" s i = { s with doc := s.doc.set i (onBlur_ r) } := by
  simp [dispatchEvent, runHandler, stdListeners, hr, hl]

theorem dispatchEvent_mouseup (s : EventLoop) (i : Nat) (r : RadioElem)
    (hr : s.doc[i]? = some r) (hl : r.listeners = stdListeners) :
    dispatchEvent "mouseup" s i = { s with pending := s.pending ++ [Task.blurBtn i] } := by
  simp [dispatchEvent, runHandler, onMouseup_, blur_, stdListeners, hr, hl]

/-- C5: programmatic check and uncheck first mirror the flag to the native
checked property of the control and then run exactly the group propagation
a user-driven change event runs: dispatching a change event on the control
after the same native state update yields the same document, and neither
path queues a deferred task. -/
theorem c5_check_uncheck_user_equiv (doc : Document) (i : Nat) (r : RadioElem)
    (hr : doc[i]? = some r) (hl : r.listeners = stdListeners) :
    check doc i =
      (dispatchEvent "change" (EventLoop.mk (setCheckedNative doc i) []) i).doc ∧
    (dispatchEvent "change" (EventLoop.mk (setCheckedNative doc i) []) i).pending = [] ∧
    uncheck doc i =
      (dispatchEvent "change"
        (EventLoop.mk (doc.set i { r with btn := { r.btn with checked := false } }) [])
        i).doc ∧
    (dispatchEvent "change"
        (EventLoop.mk (doc.set i { r with btn := { r.btn with checked := false } }) [])
        i).pending = [] := by
  have hi : i < doc.length := getElem?_lt_length hr
  have hdoci : doc[i] = r := by
    rw [List.getElem?_eq_getElem hi] at hr
    exact Option.some.inj hr
  have hset1 : (setCheckedNative doc i)[i]? =
      some { r with btn := { r.btn with checked := true } } := by
    rw [setCheckedNative_getElem? doc i hi i, if_pos rfl, hdoci]
  have hset2 : (doc.set i { r with btn := { r.btn with checked := false } })[i]? =
      some { r with btn := { r.btn with checked := false } } :=
    List.getElem?_set_eq_of_lt _ hi
  refine ⟨?_, ?_, ?_, ?_⟩
  · unfold check
    rw [hr, dispatchEvent_change (EventLoop.mk (setCheckedNative doc i) []) i
      { r with btn := { r.btn with checked := true } } hset1 hl]
  · rw [dispatchEvent_change (EventLoop.mk (setCheckedNative doc i) []) i
      { r with btn := { r.btn with checked := true } } hset1 hl]
  · unfold uncheck
    rw [hr, dispatchEvent_change
      (EventLoop.mk (doc.set i { r with btn := { r.btn with checked := false } }) []) i
      { r with btn := { r.btn with checked := false } } hset2 hl]
  · rw [dispatchEvent_change
      (EventLoop.mk (doc.set i { r with btn := { r.btn with checked := false } }) []) i
      { r with btn := { r.btn with checked := false } } hset2 hl]

/-- C8: a mouseup on an upgraded instance does not blur the control
synchronously: the document is unchanged within the event-handling turn and
exactly one deferred blur task is appended to the queue; no dispatch ever
removes a queued task (fire and forget, no cancellation path); and running
the queued deferred callback is what defocuses the control. -/
theorem c8_deferred_blur (s : EventLoop) (i : Nat) (r : RadioElem)
    (hr : s.doc[i]? = some r) (hl : r.listeners = stdListeners) :
    (dispatchEvent "mouseup" s i).doc = s.doc ∧
    (dispatchEvent "mouseup" s i).pending = s.pending ++ [Task.blurBtn i] ∧
    (∀ ev j, ∃ ts, (dispatchEvent ev s j).pending = s.pending ++ ts) ∧
    (∀ r2 : RadioElem, (runTask s (Task.blurBtn i)).doc[i]? = some r2 →
      r2.btn.focused = false) := by
  have hi : i < s.doc.length := getElem?_lt_length hr
  have hmu := dispatchEvent_mouseup s i r hr hl
  refine ⟨?_, ?_, fun ev j => dispatchEvent_pending ev s j, ?_⟩
  · rw [hmu]
  · rw [hmu]
  · intro r2 h2
    have hset : (s.doc.set i { r with btn := { r.btn with focused := false } })[i]? =
        some { r with btn := { r.btn with focused := false } } :=
      List.getElem?_set_eq_of_lt _ hi
    have hrt : runTask s (Task.blurBtn i) =
        dispatchEvent "blur"
          { s with doc :=
            s.doc.set i { r with btn := { r.btn with focused := false } } } i := by
      simp only [runTask, hr]
    rw [hrt, dispatchEvent_blur
      { s with doc := s.doc.set i { r with btn := { r.btn with focused := false } } } i
      { r with btn := { r.btn with focused := false } } hset hl] at h2
    have hset2 : ((s.doc.set i { r with btn := { r.btn with focused := false } }).set i
        (onBlur_ { r with btn := { r.btn with focused := false } }))[i]? =
        some (onBlur_ { r with btn := { r.btn with focused := false } }) :=
      List.getElem?_set_eq_of_lt _ (by rw [List.length_set]; exact hi)
    have h3 : ((s.doc.set i { r with btn := { r.btn with focused := false } }).set i
        (onBlur_ { r with btn := { r.btn with focused := false } }))[i]? = some r2 := h2
    rw [hset2] at h3
    rw [← Option.some.inj h3]
    rfl

theorem mem_onChangeF_is_focused (name : String) (r : RadioElem) :
    IS_FOCUSED ∈ (onChangeF name r).classes ↔ IS_FOCUSED ∈ r.classes := by
  unfold onChangeF
  split
  · exact mem_updateClasses_of_ne _ _ (by decide) (by decide)
  · exact Iff.rfl

/-- C2 counterexample input: a single upgraded instance with the
listeners exactly as init registers them, control focused, container not
yet carrying the focused class. -/
def exFocusLoop : EventLoop :=
  EventLoop.mk
    [RadioElem.mk [JS_RADIO_CLASS, IS_UPGRADED] (BtnElement.mk "tier" false false true)
      stdListeners true] []

/-- C2 counterexample: the claim says a focus event adds the IS_FOCUSED
class to the container; on this upgraded instance a focus event leaves
the container without IS_FOCUSED, because init binds onChange_ as the focus
handler, so the focus dispatch only reruns the group resynchronization. -/
theorem c2_focus_counterexample :
    IS_FOCUSED ∉ ((dispatchEvent "focus" exFocusLoop 0).doc.get ⟨0, by decide⟩).classes := by
  decide

/-- C2 amended: for every upgraded widget instance (listeners as init
registers them), a blur event on the control removes the IS_FOCUSED class
from the container, but a focus event does not add it: the focus dispatch
runs onChange_ and leaves IS_FOCUSED membership unchanged on every element
of the document. -/
theorem c2_amended_focus_blur (s : EventLoop) (i : Nat) (r : RadioElem)
    (hr : s.doc[i]? = some r) (hl : r.listeners = stdListeners) :
    (∀ (j : Nat) (r1 r2 : RadioElem), s.doc[j]? = some r1 →
      (dispatchEvent "focus" s i).doc[j]? = some r2 →
      (IS_FOCUSED ∈ r2.classes ↔ IS_FOCUSED ∈ r1.classes)) ∧
    (∀ r2 : RadioElem, (dispatchEvent "blur" s i).doc[i]? = some r2 →
      IS_FOCUSED ∉ r2.classes) := by
  have hi : i < s.doc.length := getElem?_lt_length hr
  have hfocus : (dispatchEvent "focus" s i).doc = onChange_ s.doc r.btn.name := by
    rw [dispatchEvent_focus s i r hr hl]
  have hblur : (dispatchEvent "blur" s i).doc = s.doc.set i (onBlur_ r) := by
    rw [dispatchEvent_blur s i r hr hl]
  constructor
  · intro j r1 r2 h1 h2
    rw [hfocus, onChange_eq_map, List.getElem?_map, h1] at h2
    simp only [Option.map_some', Option.some.injEq] at h2
    rw [← h2]
    exact mem_onChangeF_is_focused _ _
  · intro r2 h2
    rw [hblur, List.getElem?_set_eq_of_lt _ hi] at h2
    have h3 : r2 = onBlur_ r := (Option.some.inj h2).symm
    rw [h3]
    exact not_mem_classListRemove_self _ _

/-- C2 witness for the amended statement, at the concrete upgraded
instance. -/
theorem c2_amended_focus_blur_witness :
    exFocusLoop.doc[0]? = some (RadioElem.mk [JS_RADIO_CLASS, IS_UPGRADED]
      (BtnElement.mk "tier" false false true) stdListeners true) ∧
    ((∀ (j : Nat) (r1 r2 : RadioElem), exFocusLoop.doc[j]? = some r1 →
      (dispatchEvent "focus" exFocusLoop 0).doc[j]? = some r2 →
      (IS_FOCUSED ∈ r2.classes ↔ IS_FOCUSED ∈ r1.classes)) ∧
    (∀ r2 : RadioElem, (dispatchEvent "blur" exFocusLoop 0).doc[0]? = some r2 →
      IS_FOCUSED ∉ r2.classes)) :=
  ⟨rfl, c2_amended_focus_blur exFocusLoop 0
    (RadioElem.mk [JS_RADIO_CLASS, IS_UPGRADED] (BtnElement.mk "tier" false false true)
      stdListeners true) rfl rfl⟩

/-- C8 witness at the concrete upgraded instance. -/
theorem c8_deferred_blur_witness :
    exFocusLoop.doc[0]? = some (RadioElem.mk [JS_RADIO_CLASS, IS_UPGRADED]
      (BtnElement.mk "tier" false false true) stdListeners true) ∧
    ((dispatchEvent "mouseup" exFocusLoop 0).doc = exFocusLoop.doc ∧
    (dispatchEvent "mouseup" exFocusLoop 0).pending =
      exFocusLoop.pending ++ [Task.blurBtn 0] ∧
    (∀ ev j, ∃ ts, (dispatchEvent ev exFocusLoop j).pending =
      exFocusLoop.pending ++ ts) ∧
    (∀ r2 : RadioElem, (runTask exFocusLoop (Task.blurBtn 0)).doc[0]? = some r2 →
      r2.btn.focused = false)) :=
  ⟨rfl, c8_deferred_blur exFocusLoop 0
    (RadioElem.mk [JS_RADIO_CLASS, IS_UPGRADED] (BtnElement.mk "tier" false false true)
      stdListeners true) rfl rfl⟩

/-- C5 witness at element 1 of the concrete tier group. -/
theorem c5_check_uncheck_user_equiv_witness :
    exGroupDoc[1]? = some (RadioElem.mk [JS_RADIO_CLASS, IS_UPGRADED]
      (BtnElement.mk "tier" false false false) stdListeners true) ∧
    (check exGroupDoc 1 =
      (dispatchEvent "change" (EventLoop.mk (setCheckedNative exGroupDoc 1) []) 1).doc ∧
    (dispatchEvent "change" (EventLoop.mk (setCheckedNative exGroupDoc 1) []) 1).pending
        = [] ∧
    uncheck exGroupDoc 1 =
      (dispatchEvent "change"
        (EventLoop.mk (exGroupDoc.set 1 (RadioElem.mk [JS_RADIO_CLASS, IS_UPGRADED]
          (BtnElement.mk "tier" false false false) stdListeners true)) []) 1).doc ∧
    (dispatchEvent "change"
        (EventLoop.mk (exGroupDoc.set 1 (RadioElem.mk [JS_RADIO_CLASS, IS_UPGRADED]
          (BtnElement.mk "tier" false false false) stdListeners true)) []) 1).pending
        = []) :=
  ⟨rfl, c5_check_uncheck_user_equiv exGroupDoc 1
    (RadioElem.mk [JS_RADIO_CLASS, IS_UPGRADED] (BtnElement.mk "tier" false false false)
      stdListeners true) rfl rfl⟩

/-- A decorative child span appended by init: its classList, the listeners
registered on it, and its own children. -/
inductive ChildNode where
  | span (classes : List String) (listeners : List (String × Handler))
      (children : List ChildNode)

/-- The container element as init sees it: its classList, the result of
querySelector for the inner native control (none when the expected control
is absent), the child nodes appended so far, and the listeners registered
on the control and on the container itself. -/
structure ContainerElem where
  classes : List String
  control : Option BtnElement
  children : List ChildNode
  controlListeners : List (String × Handler)
  containerListeners : List (String × Handler)

/-- MaterialRadio.prototype.init: a silent no-op when this.element_ is
absent. Otherwise: locate the control with querySelector, append the outer
and inner circle spans, and when the container carries the RIPPLE_EFFECT
marker class also add RIPPLE_IGNORE_EVENTS and append a ripple container
span with a mouseup listener and a ripple child. Then register the change,
focus and blur listeners on the control (the focus listener is bound to
onChange_ in the source) and mouseup on the container, run updateClasses_,
and add IS_UPGRADED. Reading addEventListener off a missing control throws
a TypeError, modelled as Except.error. -/
def init (element_ : Option ContainerElem) : Except String (Option ContainerElem) :=
  match element_ with
  | none => Except.ok none
  | some e0 =>
    let e1 : ContainerElem :=
      { e0 with children := e0.children ++
          [ChildNode.span [RADIO_OUTER_CIRCLE] [] [],
           ChildNode.span [RADIO_INNER_CIRCLE] [] []] }
    let e2 : ContainerElem :=
      if RIPPLE_EFFECT ∈ e1.classes then
        { e1 with
          classes := classListAdd e1.classes RIPPLE_IGNORE_EVENTS,
          children := e1.children ++
            [ChildNode.span [RIPPLE_CONTAINER, RIPPLE_EFFECT, RIPPLE_CENTER]
              [("mouseup", Handler.onMouseup)]
              [ChildNode.span [RIPPLE] [] []]] }
      else e1
    match e2.control with
    | none => Except.error "TypeError"
    | some btn =>
      let e3 : ContainerElem :=
        { e2 with
          controlListeners := e2.controlListeners ++
            [("change", Handler.onChange), ("focus", Handler.onChange),
             ("blur", Handler.onBlur)],
          containerListeners := e2.containerListeners ++
            [("mouseup", Handler.onMouseup)] }
      let inst : RadioElem :=
        updateClasses_ (RadioElem.mk e3.classes btn
          (e3.controlListeners ++ e3.containerListeners) true)
      Except.ok (some { e3 with classes := classListAdd inst.classes IS_UPGRADED })

theorem mem_classListAdd_of_ne_iff {a c : String} (cs : List String) (h : a ≠ c) :
    a ∈ classListAdd cs c ↔ a ∈ cs := by
  rw [mem_classListAdd_iff]
  constructor
  · rintro (hx | hx)
    · exact hx
    · exact absurd hx h
  · exact Or.inl

/-- C7: init is a silent no-op on an absent container (it returns ok with
no DOM mutation, no listener registration and no throw); on a present
container whose inner control is found it registers the change, focus and
blur listeners on the control and mouseup on the container, appends the
outer and inner circle spans (plus the ripple container span exactly when
the RIPPLE_EFFECT marker class is present), performs the initial state sync
and adds the IS_UPGRADED class. -/
def initRippleResult (e : ContainerElem) (b : BtnElement) : ContainerElem :=
  ContainerElem.mk
    (classListAdd (updateClasses_ (RadioElem.mk
      (classListAdd e.classes RIPPLE_IGNORE_EVENTS) b
      ((e.controlListeners ++ [("change", Handler.onChange), ("focus", Handler.onChange),
        ("blur", Handler.onBlur)]) ++
       (e.containerListeners ++ [("mouseup", Handler.onMouseup)])) true)).classes
      IS_UPGRADED)
    e.control
    (e.children ++
      [ChildNode.span [RADIO_OUTER_CIRCLE] [] [],
       ChildNode.span [RADIO_INNER_CIRCLE] [] [],
       ChildNode.span [RIPPLE_CONTAINER, RIPPLE_EFFECT, RIPPLE_CENTER]
         [("mouseup", Handler.onMouseup)] [ChildNode.span [RIPPLE] [] []]])
    (e.controlListeners ++
      [("change", Handler.onChange), ("focus", Handler.onChange),
       ("blur", Handler.onBlur)])
    (e.containerListeners ++ [("mouseup", Handler.onMouseup)])

def initPlainResult (e : ContainerElem) (b : BtnElement) : ContainerElem :=
  ContainerElem.mk
    (classListAdd (updateClasses_ (RadioElem.mk
      e.classes b
      ((e.controlListeners ++ [("change", Handler.onChange), ("focus", Handler.onChange),
        ("blur", Handler.onBlur)]) ++
       (e.containerListeners ++ [("mouseup", Handler.onMouseup)])) true)).classes
      IS_UPGRADED)
    e.control
    (e.children ++
      [ChildNode.span [RADIO_OUTER_CIRCLE] [] [],
       ChildNode.span [RADIO_INNER_CIRCLE] [] []])
    (e.controlListeners ++
      [("change", Handler.onChange), ("focus", Handler.onChange),
       ("blur", Handler.onBlur)])
    (e.containerListeners ++ [("mouseup", Handler.onMouseup)])

/-- C7: init is a silent no-op on an absent container (it returns ok with
no DOM mutation, no listener registration and no throw); on a present
container whose inner control is found it registers the change, focus and
blur listeners on the control and mouseup on the container, appends the
outer and inner circle spans (plus the ripple container span exactly when
the RIPPLE_EFFECT marker class is present), performs the initial state sync
and adds the IS_UPGRADED class. -/
theorem c7_init (e : ContainerElem) (b : BtnElement) (hb : e.control = some b) :
    init none = Except.ok none ∧
    ∃ e2, init (some e) = Except.ok (some e2) ∧
      e2.controlListeners = e.controlListeners ++
        [("change", Handler.onChange), ("focus", Handler.onChange),
         ("blur", Handler.onBlur)] ∧
      e2.containerListeners = e.containerListeners ++ [("mouseup", Handler.onMouseup)] ∧
      (RIPPLE_EFFECT ∈ e.classes →
        e2.children = e.children ++
          [ChildNode.span [RADIO_OUTER_CIRCLE] [] [],
           ChildNode.span [RADIO_INNER_CIRCLE] [] [],
           ChildNode.span [RIPPLE_CONTAINER, RIPPLE_EFFECT, RIPPLE_CENTER]
             [("mouseup", Handler.onMouseup)] [ChildNode.span [RIPPLE] [] []]]) ∧
      (RIPPLE_EFFECT ∉ e.classes →
        e2.children = e.children ++
          [ChildNode.span [RADIO_OUTER_CIRCLE] [] [],
           ChildNode.span [RADIO_INNER_CIRCLE] [] []]) ∧
      IS_UPGRADED ∈ e2.classes ∧
      (IS_CHECKED ∈ e2.classes ↔ b.checked = true) ∧
      (IS_DISABLED ∈ e2.classes ↔ b.disabled = true) := by
  refine ⟨rfl, ?_⟩
  by_cases hrip : RIPPLE_EFFECT ∈ e.classes
  · refine ⟨initRippleResult e b,
      ?_, rfl, rfl, fun _ => rfl, fun h => absurd hrip h, mem_classListAdd_self _ _,
      ?_, ?_⟩
    · simp [init, initRippleResult, hrip, hb]
    · rw [show (initRippleResult e b).classes = classListAdd (updateClasses_ (RadioElem.mk
        (classListAdd e.classes RIPPLE_IGNORE_EVENTS) b
        ((e.controlListeners ++ [("change", Handler.onChange), ("focus", Handler.onChange),
          ("blur", Handler.onBlur)]) ++
         (e.containerListeners ++ [("mouseup", Handler.onMouseup)])) true)).classes
        IS_UPGRADED from rfl,
        mem_classListAdd_of_ne_iff _ (by decide)]
      exact mem_updateClasses_is_checked _
    · rw [show (initRippleResult e b).classes = classListAdd (updateClasses_ (RadioElem.mk
        (classListAdd e.classes RIPPLE_IGNORE_EVENTS) b
        ((e.controlListeners ++ [("change", Handler.onChange), ("focus", Handler.onChange),
          ("blur", Handler.onBlur)]) ++
         (e.containerListeners ++ [("mouseup", Handler.onMouseup)])) true)).classes
        IS_UPGRADED from rfl,
        mem_classListAdd_of_ne_iff _ (by decide)]
      exact mem_updateClasses_is_disabled _
  · refine ⟨initPlainResult e b,
      ?_, rfl, rfl, fun h => absurd h hrip, fun _ => rfl, mem_classListAdd_self _ _,
      ?_, ?_⟩
    · simp [init, initPlainResult, hrip, hb]
    · rw [show (initPlainResult e b).classes = classListAdd (updateClasses_ (RadioElem.mk
        e.classes b
        ((e.controlListeners ++ [("change", Handler.onChange), ("focus", Handler.onChange),
          ("blur", Handler.onBlur)]) ++
         (e.containerListeners ++ [("mouseup", Handler.onMouseup)])) true)).classes
        IS_UPGRADED from rfl,
        mem_classListAdd_of_ne_iff _ (by decide)]
      exact mem_updateClasses_is_checked _
    · rw [show (initPlainResult e b).classes = classListAdd (updateClasses_ (RadioElem.mk
        e.classes b
        ((e.controlListeners ++ [("change", Handler.onChange), ("focus", Handler.onChange),
          ("blur", Handler.onBlur)]) ++
         (e.containerListeners ++ [("mouseup", Handler.onMouseup)])) true)).classes
        IS_UPGRADED from rfl,
        mem_classListAdd_of_ne_iff _ (by decide)]
      exact mem_updateClasses_is_disabled _

/-- C7 witness input: a ripple-enabled container holding a checked control. -/
def exContainer : ContainerElem :=
  ContainerElem.mk [JS_RADIO_CLASS, RIPPLE_EFFECT]
    (some (BtnElement.mk "tier" true false false)) [] [] []

/-- C7 witness at the concrete container. -/
theorem c7_init_witness :
    exContainer.control = some (BtnElement.mk "tier" true false false) ∧
    (init none = Except.ok none ∧
    ∃ e2, init (some exContainer) = Except.ok (some e2) ∧
      e2.controlListeners = exContainer.controlListeners ++
        [("change", Handler.onChange), ("focus", Handler.onChange),
         ("blur", Handler.onBlur)] ∧
      e2.containerListeners = exContainer.containerListeners ++
        [("mouseup", Handler.onMouseup)] ∧
      (RIPPLE_EFFECT ∈ exContainer.classes →
        e2.children = exContainer.children ++
          [ChildNode.span [RADIO_OUTER_CIRCLE] [] [],
           ChildNode.span [RADIO_INNER_CIRCLE] [] [],
           ChildNode.span [RIPPLE_CONTAINER, RIPPLE_EFFECT, RIPPLE_CENTER]
             [("mouseup", Handler.onMouseup)] [ChildNode.span [RIPPLE] [] []]]) ∧
      (RIPPLE_EFFECT ∉ exContainer.classes →
        e2.children = exContainer.children ++
          [ChildNode.span [RADIO_OUTER_CIRCLE] [] [],
           ChildNode.span [RADIO_INNER_CIRCLE] [] []]) ∧
      IS_UPGRADED ∈ e2.classes ∧
      (IS_CHECKED ∈ e2.classes ↔ (BtnElement.mk "tier" true false false).checked = true) ∧
      (IS_DISABLED ∈ e2.classes ↔
        (BtnElement.mk "tier" true false false).disabled = true)) :=
  ⟨rfl, c7_init exContainer (BtnElement.mk "tier" true false false) rfl⟩

end MaterialRadio



namespace HTML

/-- The props Gatsby passes to the document shell: ordered collections of
injected head, pre-body and post-body components (modelled as plain
strings) and the generated body HTML string. -/
structure HtmlProps where
  headComponents : List String
  preBodyComponents : List String
  postBodyComponents : List String
  body : String

/-- Module top of the shell: in production mode, attempt to require the
generated stylesheet inside a try block; on failure console.error the
caught error and continue with stylesStr undefined. Outside production
nothing is loaded. The Except argument stands for the require call; the
result is the stylesStr value (none when undefined) paired with whether an
error was logged. -/
def loadStylesStr (production : Bool) (requireStyles : Except String String) :
    Option String × Bool :=
  if production then
    match requireStyles with
    | Except.ok s => (some s, false)
    | Except.error _ => (none, true)
  else (none, false)

/-- The fixed head metadata the shell always renders (charset, viewport,
keywords, twitter and og tags, titles and colors). -/
def headMetadata : List (String × String) :=
  [("charset", "utf-8"),
   ("x-ua-compatible", "ie=edge"),
   ("viewport", "width=device-width, shrink-to-fit=no,"
      ++ " initial-scale=1.0, minimum-scale=1.0"),
   ("keywords", "bastion, bastion bot, discord, discord bot, bot, music,"
      ++ " currency, the best discord bot, best discord bot, best bot,"
      ++ " stream, game, fun, administration, moderation, queries,"
      ++ " searches, gambling, game stats, stats, info"),
   ("twitter:card", "summary_large_image"),
   ("twitter:site", ""),
   ("twitter:creator", "@JimmyJasonDev"),
   ("og:site_name", "Clara Discord Bot"),
   ("og:url", "https://claradiscordbot.glitch.me"),
   ("og:image:width", "1000"),
   ("og:image:height", "524"),
   ("og:type", "website"),
   ("apple-mobile-web-app-title", "Clara Discord Bot"),
   ("application-name", "Clara Discord Bot"),
   ("msapplication-TileColor", "#070a0c"),
   ("theme-color", "#070a0c")]

/-- The rendered document: the html lang attribute, the fixed head
metadata, the injected head components followed by the optional inlined
style element (some c is a rendered style element whose content c may be
none when stylesStr is undefined; none means no style element at all),
then the body: pre-body components, the gatsby mount div content, and
post-body components. -/
structure RenderedDoc where
  lang : String
  headMeta : List (String × String)
  headComponents : List String
  inlinedStyle : Option (Option String)
  preBodyComponents : List String
  mountBodyHtml : String
  postBodyComponents : List String

/-- HTML.render: in production mode the gatsby-inlined-css style element is
created with the module-level stylesStr as content and placed after the
head components; outside production no style element exists at all. The
rest of the document is composed from the fixed metadata and the props. -/
def render (production : Bool) (stylesStr : Option String) (props : HtmlProps) :
    RenderedDoc :=
  RenderedDoc.mk "en-US" headMetadata props.headComponents
    (if production then some stylesStr else none)
    props.preBodyComponents props.body props.postBodyComponents

end HTML

/-- C9: in production mode a failing stylesheet load is caught in the
guarded attempt: the error is logged, stylesStr stays undefined, and
rendering continues with the inlined style element carrying no stylesheet
content while every other part of the rendered document (head metadata,
injected components, body mount content) is exactly what a successful load
yields; outside production mode nothing is loaded and no style element is
inlined at all, whatever the load outcome. -/
theorem c9_styles_guarded (err s : String) (props : HTML.HtmlProps)
    (anyLoad : Except String String) :
    HTML.loadStylesStr true (Except.error err) = (none, true) ∧
    HTML.render true (HTML.loadStylesStr true (Except.error err)).1 props =
      { HTML.render true (some s) props with inlinedStyle := some none } ∧
    HTML.loadStylesStr false anyLoad = (none, false) ∧
    (HTML.render false (HTML.loadStylesStr false anyLoad).1 props).inlinedStyle
      = none ∧
    HTML.render false (HTML.loadStylesStr false anyLoad).1 props =
      { HTML.render true (some s) props with inlinedStyle := none } :=
  ⟨rfl, rfl, rfl, rfl, rfl⟩
